import Mathlib

/-!
# Point Jewels Dashboard — verification of the aggregation layer

Shallow embedding of the data-aggregation core of the Point Jewels
project-tracking dashboard: task statistics, overdue detection, financial
summaries, days-to-launch, task filtering, add-task mutation and smart
suggestions.  The repository ships two variants of several functions
(`src/app.py` and `src/utils/helpers.py`); both are embedded where they
differ, with `_app` and `_helpers` suffixes.

Dates are modelled as proleptic-Gregorian epoch-day numbers (days since
1970-01-01) and datetimes as epoch seconds; `datetime.strptime(s, "%Y-%m-%d")`
becomes `parseDate : String → Option Int`, returning `none` exactly when the
Python call raises `ValueError`.  Python strings are Lean `String`s with
explicit `py*` helpers mirroring `str.lower`, `str.strip`, `str.split` and
the `in` substring test.
-/

namespace PointJewels

/-! ### Python string primitives -/

/-- Python `str.lower()` (per-character lowercasing). -/
def pyLower (s : String) : String := ⟨s.data.map Char.toLower⟩

/-- Does the second character list start with the first? -/
def pyStartsWith : List Char → List Char → Bool
  | [], _ => true
  | _ :: _, [] => false
  | a :: as, b :: bs => a == b && pyStartsWith as bs

/-- Contiguous-substring test on character lists. -/
def pySubstrAux : List Char → List Char → Bool
  | sub, [] => sub.isEmpty
  | sub, b :: bs => pyStartsWith sub (b :: bs) || pySubstrAux sub bs

/-- Python `sub in s` substring test for strings. -/
def pySubstr (sub s : String) : Bool := pySubstrAux sub.data s.data

/-- Python's whitespace set for `str.strip` / `str.split`. -/
def pyIsSpace (c : Char) : Bool :=
  c = ' ' ∨ c = '\t' ∨ c = '\n' ∨ c = '\r' ∨ c = '\x0b' ∨ c = '\x0c'

/-- Python `str.strip()` with no arguments: drop leading and trailing whitespace. -/
def pyStrip (s : String) : String :=
  ⟨((s.data.dropWhile pyIsSpace).reverse.dropWhile pyIsSpace).reverse⟩

/-- Python `str.split()` with no arguments: split on whitespace runs, no empty parts. -/
def pySplitWs (s : String) : List String :=
  ((s.data.splitOnP pyIsSpace).filter (fun w => w ≠ [])).map (fun w => ⟨w⟩)

/-! ### Dates

`datetime.strptime(s, "%Y-%m-%d")` parses a 4-digit year, a 1–2 digit month and
a 1–2 digit day, validating the calendar (month range, day range including leap
years) and raising `ValueError` otherwise.  `toEpochDay` is the standard civil
calendar-to-epoch-day conversion; the parsed datetime is midnight of that day,
i.e. `86400 * day` epoch seconds.  `datetime.now()` is a free epoch-seconds
parameter `now`. -/

def isLeapYear (y : Nat) : Bool := (y % 4 == 0 && y % 100 != 0) || y % 400 == 0

def daysInMonth (y m : Nat) : Nat :=
  if m = 2 then (if isLeapYear y then 29 else 28)
  else if m = 4 ∨ m = 6 ∨ m = 9 ∨ m = 11 then 30 else 31

/-- Days since 1970-01-01 of the civil date `y-m-d` (proleptic Gregorian). -/
def toEpochDay (y m d : Nat) : Int :=
  let y2 := if m ≤ 2 then y - 1 else y
  let era := y2 / 400
  let yoe := y2 % 400
  let mp := (m + 9) % 12
  let doy := (153 * mp + 2) / 5 + (d - 1)
  let doe := yoe * 365 + yoe / 4 - yoe / 100 + doy
  (era * 146097 + doe : Int) - 719468

/-- Numeric value of a digit string. -/
def digitsVal (l : List Char) : Nat := l.foldl (fun n c => 10 * n + (c.toNat - 48)) 0

/-- `datetime.strptime(s, "%Y-%m-%d")`: `some` epoch day on success, `none` when
Python would raise `ValueError`. -/
def parseDate (s : String) : Option Int :=
  match s.data.splitOn '-' with
  | [ys, ms, ds] =>
    if ys.length = 4 ∧ ys.all Char.isDigit
        ∧ (ms.length = 1 ∨ ms.length = 2) ∧ ms.all Char.isDigit
        ∧ (ds.length = 1 ∨ ds.length = 2) ∧ ds.all Char.isDigit then
      let y := digitsVal ys
      let m := digitsVal ms
      let d := digitsVal ds
      if 1 ≤ y ∧ 1 ≤ m ∧ m ≤ 12 ∧ 1 ≤ d ∧ d ≤ daysInMonth y m then
        some (toEpochDay y m d)
      else none
    else none
  | _ => none

/-! ### Data model -/

/-- A task record (`{"id", "task", "week", "deadline", "status", "assignee", "priority"}`). -/
structure Task where
  id : Int
  task : String
  week : Int
  deadline : String
  status : String
  assignee : String
  priority : String
deriving DecidableEq, Repr

/-- A payment record; `status` is `Option` because the code reads it with `.get("status")`. -/
structure Payment where
  date : String
  amount : Int
  status : Option String
deriving DecidableEq, Repr

/-- The `finances` sub-document. -/
structure Finances where
  budget_total : Int
  received : List Payment
  pending_in : List Payment
  paid_out : List Payment
  pending_out : List Payment
  designer_total : Int
  expenses_misc : Int
deriving Repr

/-- The `project` sub-document (fields the embedded functions read). -/
structure Project where
  name : String
  current_week : Int
  launch_date : String
deriving Repr

/-! ### Overdue detection — both variants -/

/-- `is_task_overdue` from `src/app.py`: returns `False` for completed tasks,
otherwise parses the deadline (propagating `ValueError`, hence `Option`) and
compares the parsed midnight against `datetime.now()`. -/
def is_task_overdue_app (t : Task) (now : Int) : Option Bool :=
  if t.status = "completed" then some false
  else (parseDate t.deadline).map (fun d => decide (86400 * d < now))

/-- `is_task_overdue` from `src/utils/helpers.py`: compares the parsed deadline
against `datetime.now()` regardless of status; `ValueError`/`KeyError` is
caught and yields `False`. -/
def is_task_overdue_helpers (t : Task) (now : Int) : Bool :=
  match parseDate t.deadline with
  | some d => decide (86400 * d < now)
  | none => false

/-! ### Days to launch — both variants -/

/-- `get_days_remaining` from `src/app.py`: `(launch_date - datetime.now()).days`,
no clamping; `strptime` errors propagate (`Option`).  `timedelta.days` is floor
division of the signed second difference by 86400. -/
def get_days_remaining_app (p : Project) (now : Int) : Option Int :=
  (parseDate p.launch_date).map (fun d => Int.fdiv (86400 * d - now) 86400)

/-- `get_days_remaining` from `src/utils/helpers.py`: same difference but
clamped with `max(0, ...)`, and parse errors are caught, returning 0. -/
def get_days_remaining_helpers (p : Project) (now : Int) : Int :=
  match parseDate p.launch_date with
  | some d => max 0 (Int.fdiv (86400 * d - now) 86400)
  | none => 0

/-! ### Task statistics — both variants -/

/-- Result shape of `get_task_stats` in `src/app.py`. -/
structure TaskStatsApp where
  total : Nat
  completed : Nat
  pending : Nat
  critical : Nat
deriving DecidableEq, Repr

/-- `get_task_stats` from `src/app.py`: four independent counts. -/
def get_task_stats_app (tasks : List Task) : TaskStatsApp where
  total := tasks.length
  completed := (tasks.filter (fun t => t.status = "completed")).length
  pending := (tasks.filter (fun t => t.status = "pending")).length
  critical := (tasks.filter (fun t => t.priority = "critical")).length

/-- Result shape of `get_task_stats` in `src/utils/helpers.py`. -/
structure TaskStatsHelpers where
  total : Nat
  completed : Nat
  pending : Nat
  overdue : Nat
deriving DecidableEq, Repr

/-- `get_task_stats` from `src/utils/helpers.py`: `pending = total - completed`,
and an overdue count that re-checks non-completion. -/
def get_task_stats_helpers (tasks : List Task) (now : Int) : TaskStatsHelpers where
  total := tasks.length
  completed := (tasks.filter (fun t => t.status = "completed")).length
  pending := tasks.length - (tasks.filter (fun t => t.status = "completed")).length
  overdue := (tasks.filter (fun t => is_task_overdue_helpers t now ∧ t.status ≠ "completed")).length

/-! ### Financial summary — both variants -/

/-- `sum(p["amount"] for p in l)`. -/
def sumAmounts (l : List Payment) : Int := (l.map Payment.amount).sum

/-- Result shape of both `get_financial_summary` variants. -/
structure FinSummary where
  received : Int
  pending_in : Int
  paid_out : Int
  pending_out : Int
  profit : Int
  balance : Int
deriving DecidableEq, Repr

/-- `get_financial_summary` from `src/utils/helpers.py`: received/paid sums are
filtered by the payment's own status; `total_received = received + pending_in`,
`total_paid = paid_out + pending_out`, `profit = total_received - total_paid`,
`balance = total_received - paid_out` (the line commented
`# Excluding pending payments` in the source). -/
def get_financial_summary_helpers (f : Finances) : FinSummary :=
  let received := sumAmounts (f.received.filter (fun p => p.status = some "received"))
  let pending_in := sumAmounts f.pending_in
  let paid_out := sumAmounts (f.paid_out.filter (fun p => p.status = some "paid"))
  let pending_out := sumAmounts f.pending_out
  { received := received
    pending_in := pending_in
    paid_out := paid_out
    pending_out := pending_out
    profit := (received + pending_in) - (paid_out + pending_out)
    balance := (received + pending_in) - paid_out }

/-- `get_financial_summary` from `src/app.py`: unfiltered sums,
allocation-based profit, `balance = sum(received) - sum(paid_out)`. -/
def get_financial_summary_app (f : Finances) : FinSummary where
  received := sumAmounts f.received
  pending_in := sumAmounts f.pending_in
  paid_out := sumAmounts f.paid_out
  pending_out := sumAmounts f.pending_out
  profit := f.budget_total - f.designer_total - f.expenses_misc
  balance := sumAmounts f.received - sumAmounts f.paid_out

/-- The balance formula as the specification states it: received amounts with
status `received` minus paid-out amounts with status `paid`, pending lists
excluded.  Stated for refinement comparison with the two source variants. -/
def balance_spec (f : Finances) : Int :=
  sumAmounts (f.received.filter (fun p => p.status = some "received"))
    - sumAmounts (f.paid_out.filter (fun p => p.status = some "paid"))

/-! ### Dashboard budget utilization (`src/app.py` lines 1339–1340)

`budget_used = ((finances['received'] + finances['paid_out']) / data['finances']['budget_total']) * 100`
where `finances` is the `src/app.py` `get_financial_summary` output.  Python
raises `ZeroDivisionError` when the denominator is 0, modelled as `none`. -/

/-- Python `a / b` on numbers: `none` models `ZeroDivisionError`. -/
def pyDiv (a b : ℚ) : Option ℚ := if b = 0 then none else some (a / b)

/-- The dashboard's budget-utilization percentage (`src/app.py` line 1339). -/
def budget_used_dashboard (f : Finances) : Option ℚ :=
  let s := get_financial_summary_app f
  (pyDiv ((s.received : ℚ) + (s.paid_out : ℚ)) (f.budget_total : ℚ)).map (fun q => q * 100)

/-- Budget utilization as the specification states it: guarded against division
by zero, `budget_total = 0 ⇒ 0%`.  Stated for comparison with
`budget_used_dashboard`. -/
def budgetUtilization_spec (f : Finances) : ℚ :=
  if f.budget_total = 0 then 0
  else (((get_financial_summary_app f).received : ℚ)
        + ((get_financial_summary_app f).paid_out : ℚ)) / (f.budget_total : ℚ) * 100

/-! ### Task filtering (`src/components/tasks.py` `filter_tasks`) -/

/-- `filter_tasks` from `src/components/tasks.py` (the `if/elif` chain).  The
`overdue` branch uses the `helpers` overdue variant, which that module imports
from `utils.helpers`. -/
def filter_tasks (tasks : List Task) (now : Int) (filter_type : String) : List Task :=
  if filter_type = "all" then tasks
  else if filter_type = "pending" then tasks.filter (fun t => t.status = "pending")
  else if filter_type = "completed" then tasks.filter (fun t => t.status = "completed")
  else if filter_type = "overdue" then
    tasks.filter (fun t => is_task_overdue_helpers t now ∧ t.status ≠ "completed")
  else if filter_type = "critical" then tasks.filter (fun t => t.priority = "critical")
  else tasks

/-! ### Adding a task (`src/app.py` lines 1689–1708, the `add_task_btn` handler) -/

/-- Python `max(...)` over a list: `none` models the `ValueError` on an empty
iterable. -/
def listMax : List Int → Option Int
  | [] => none
  | x :: xs => some (xs.foldl max x)

/-- Outcome of the add-task button handler: the resulting task list (`none`
models the uncaught `ValueError` from `max()` on an empty list), whether
`save_data` ran, and the `st.error` message if one was shown. -/
structure AddBtnResult where
  tasks : Option (List Task)
  saved : Bool
  errorMsg : Option String
deriving DecidableEq, Repr

/-- The `add_task_btn` click handler from `src/app.py`: a non-blank description
appends a new pending task with `id = max(existing ids) + 1` and saves;
a blank one shows `"Task description required"` and mutates nothing. -/
def add_task_btn (tasks : List Task) (task_text : String) (week : Int)
    (deadline : String) (assignee priority : String) : AddBtnResult :=
  if pyStrip task_text ≠ "" then
    match listMax (tasks.map Task.id) with
    | some m =>
        let newTask : Task :=
          { id := m + 1, task := task_text, week := week, deadline := deadline,
            status := "pending", assignee := assignee, priority := priority }
        { tasks := some (tasks ++ [newTask]), saved := true, errorMsg := none }
    | none => { tasks := none, saved := false, errorMsg := none }
  else { tasks := some tasks, saved := false, errorMsg := some "Task description required" }

/-! ### Smart suggestions — both variants -/

/-- The `task_types` table in `src/app.py` `render_smart_suggestions`
(insertion order of the Python dict). -/
def task_types : List (String × List String) :=
  [("design", ["Create mockups", "Review designs", "Update branding", "Design review"]),
   ("development", ["Code review", "Implement feature", "Fix bug", "Deploy to staging"]),
   ("payment", ["Send invoice", "Receive payment", "Process refund", "Update budget"]),
   ("meeting", ["Client call", "Team standup", "Design review", "Project update"]),
   ("content", ["Write copy", "Create assets", "Update website", "Social media"])]

/-- One iteration of the dedup-and-cap loop in `src/app.py`
`render_smart_suggestions`: the pair is the `seen` set (of lowercase forms)
and the `unique_suggestions` accumulator. -/
def dedupStep (cap : Nat) (p : List String × List String) (s : String) :
    List String × List String :=
  if ¬ p.1.contains (pyLower s) ∧ p.2.length < cap then (pyLower s :: p.1, p.2 ++ [s])
  else p

/-- The final dedup-and-cap loop of `src/app.py` `render_smart_suggestions`:
keep a suggestion when its lowercase form is unseen and fewer than `cap`
have been kept. -/
def dedupCap (cap : Nat) (l : List String) : List String :=
  (l.foldl (dedupStep cap) ([], [])).2

/-- `render_smart_suggestions` from `src/app.py`: category-table matches, then
fuzzy matches against the last five existing tasks (two similar tasks each),
then case-insensitive dedup capped at five. -/
def render_smart_suggestions_app (task_input : String) (existing : List Task) : List String :=
  if pyStrip task_input = "" then []
  else
    let input_lower := pyLower task_input
    let fromTypes := (task_types.filter (fun p => pySubstr p.1 input_lower)).flatMap Prod.snd
    let lastFive := existing.drop (existing.length - 5)
    let fromExisting := lastFive.flatMap (fun t =>
      if pySubstr input_lower (pyLower t.task)
          ∨ (pySplitWs input_lower).any (fun w => pySubstr w (pyLower t.task)) then
        ((existing.filter (fun u => u ≠ t ∧ pySubstr (pyLower t.task) (pyLower u.task))).map
          Task.task).take 2
      else [])
    dedupCap 5 (fromTypes ++ fromExisting)

/-- The `common_patterns` table in `src/components/tasks.py`
`render_smart_suggestions`. -/
def common_patterns : List String :=
  ["Review and approve", "Schedule meeting with", "Update project timeline for",
   "Send payment reminder to", "Check progress on", "Create content for",
   "Test functionality of", "Document requirements for", "Coordinate with",
   "Finalize design for"]

/-- `render_smart_suggestions` from `src/components/tasks.py`: for each pattern
sharing a word with the input, suggest `pattern + " " + input` unless that text
is already a task, capped at three. -/
def render_smart_suggestions_tasks (task_input : String) (existing : List Task) : List String :=
  if task_input = "" ∨ task_input.length < 3 then []
  else
    let input_lower := pyLower task_input
    (((common_patterns.filter
          (fun p => (pySplitWs input_lower).any (fun w => pySubstr w (pyLower p)))).map
        (fun p => p ++ " " ++ task_input)).filter
      (fun s => ¬ (existing.map Task.task).contains s)).take 3

/-! ### Concrete sample data

Taken from the repository's default document and its test fixtures
(`get_default_data`, `test_dashboard.py`), used below to instantiate the
theorems on concrete inputs.  Epoch days: 2000-01-01 = 10957,
2024-12-02 = 20059, 2024-12-04 = 20061, 2025-01-12 = 20100,
2025-02-11 = 20130. -/

/-- A completed task with a long-past deadline. -/
def taskCompleted2000 : Task :=
  { id := 1, task := "Pay designer R5,000 deposit", week := 1, deadline := "2000-01-01",
    status := "completed", assignee := "You", priority := "critical" }

/-- A pending task due on the launch date. -/
def taskPendingLaunchDay : Task :=
  { id := 2, task := "Send Jared project brief", week := 1, deadline := "2025-01-12",
    status := "pending", assignee := "You", priority := "high" }

/-- The four-task fixture of `test_dashboard.py`. -/
def sampleTasks : List Task :=
  [{ id := 1, task := "Pay designer R5,000 deposit", week := 1, deadline := "2024-12-02",
     status := "completed", assignee := "You", priority := "critical" },
   { id := 2, task := "Send Jared project brief", week := 1, deadline := "2024-12-04",
     status := "pending", assignee := "You", priority := "high" },
   { id := 3, task := "Confirm Wednesday meeting with Liza", week := 1, deadline := "2024-12-03",
     status := "pending", assignee := "You", priority := "high" },
   { id := 4, task := "Book models for photoshoot", week := 1, deadline := "2024-12-04",
     status := "pending", assignee := "You", priority := "medium" }]

/-- The default project document (`launch_date = "2025-01-12"`). -/
def sampleProject : Project :=
  { name := "Point Jewels Website", current_week := 1, launch_date := "2025-01-12" }

/-- Noon on the launch date 2025-01-12. -/
def nowLaunchNoon : Int := 86400 * 20100 + 43200

/-- Noon on 2025-02-11, thirty days after the launch date. -/
def nowThirtyAfter : Int := 86400 * 20130 + 43200

/-- The financial fixture of `test_dashboard.py`, with a nonempty
`pending_in` list. -/
def sampleFinances : Finances :=
  { budget_total := 50000
    received := [{ date := "2024-11-25", amount := 11400, status := some "received" }]
    pending_in := [{ date := "2024-12-16", amount := 19300, status := some "pending" }]
    paid_out := [{ date := "2024-12-02", amount := 5000, status := some "paid" }]
    pending_out := [{ date := "2024-12-05", amount := 5000, status := some "pending" }]
    designer_total := 20000
    expenses_misc := 3000 }

/-- Finances whose `received` list holds an entry still marked `pending`. -/
def sampleFinancesMixed : Finances :=
  { budget_total := 50000
    received := [{ date := "2024-11-25", amount := 11400, status := some "pending" }]
    pending_in := []
    paid_out := []
    pending_out := []
    designer_total := 20000
    expenses_misc := 3000 }

/-- Finances with a zero total budget. -/
def sampleFinancesZeroBudget : Finances :=
  { budget_total := 0
    received := [{ date := "2024-11-25", amount := 11400, status := some "received" }]
    pending_in := []
    paid_out := [{ date := "2024-12-02", amount := 5000, status := some "paid" }]
    pending_out := []
    designer_total := 20000
    expenses_misc := 3000 }

/-! ## Shared lemmas -/

/-- `Int.fdiv` by the positive constant 86400 agrees with `Int.ediv`. -/
theorem fdiv_86400 (a : Int) : Int.fdiv a 86400 = a / 86400 :=
  Int.fdiv_eq_ediv a (by norm_num)

/-- A left fold of `max` dominates the seed and every list element. -/
theorem foldl_max_le (xs : List Int) (a : Int) :
    a ≤ xs.foldl max a ∧ ∀ x ∈ xs, x ≤ xs.foldl max a := by
  induction xs generalizing a with
  | nil => simp
  | cons y ys ih =>
    simp only [List.foldl_cons]
    refine ⟨le_trans (le_max_left a y) (ih (max a y)).1, ?_⟩
    intro x hx
    rcases List.mem_cons.mp hx with rfl | hx
    · exact le_trans (le_max_right a x) (ih (max a x)).1
    · exact (ih (max a y)).2 x hx

/-- A left fold of `max` returns the seed or a list element. -/
theorem foldl_max_mem (xs : List Int) (a : Int) :
    xs.foldl max a = a ∨ xs.foldl max a ∈ xs := by
  induction xs generalizing a with
  | nil => exact Or.inl rfl
  | cons y ys ih =>
    simp only [List.foldl_cons]
    rcases ih (max a y) with h | h
    · rcases le_total y a with hay | hay
      · exact Or.inl (by rw [h, max_eq_left hay])
      · exact Or.inr (by rw [h, max_eq_right hay]; exact List.mem_cons_self y ys)
    · exact Or.inr (List.mem_cons_of_mem y h)

/-- Python `max` on a nonempty list returns a member that dominates all members. -/
theorem listMax_spec (l : List Int) (hl : l ≠ []) :
    ∃ m, listMax l = some m ∧ m ∈ l ∧ ∀ x ∈ l, x ≤ m := by
  match l, hl with
  | x :: xs, _ =>
    refine ⟨xs.foldl max x, rfl, ?_, ?_⟩
    · rcases foldl_max_mem xs x with h | h
      · rw [h]; exact List.mem_cons_self x xs
      · exact List.mem_cons_of_mem x h
    · intro z hz
      rcases List.mem_cons.mp hz with rfl | hz
      · exact (foldl_max_le xs z).1
      · exact (foldl_max_le xs x).2 z hz

/-! ## Claims -/

/-- C10: `filter_tasks` with the key `"all"`, or with any key outside
`{all, pending, completed, overdue, critical}`, returns the input list
unchanged, in the original order, with no task added, removed or modified. -/
theorem filter_tasks_all_or_unknown_id (tasks : List Task) (now : Int) (key : String)
    (h : key ∉ (["all", "pending", "completed", "overdue", "critical"] : List String)) :
    filter_tasks tasks now "all" = tasks ∧ filter_tasks tasks now key = tasks := by
  simp only [List.mem_cons, List.not_mem_nil, or_false, not_or] at h
  obtain ⟨h1, h2, h3, h4, h5⟩ := h
  exact ⟨rfl, by simp [filter_tasks, h1, h2, h3, h4, h5]⟩

/-- Witness for C10 at the test fixture and the unknown key `"by_week"`. -/
theorem filter_tasks_all_or_unknown_id_witness :
    filter_tasks sampleTasks 0 "all" = sampleTasks ∧
    filter_tasks sampleTasks 0 "by_week" = sampleTasks :=
  filter_tasks_all_or_unknown_id sampleTasks 0 "by_week" (by decide)

/-- C6: adding a task whose description is empty or whitespace-only is rejected
with the user-visible error `"Task description required"`; the task list is
returned unchanged and nothing is saved. -/
theorem add_task_blank_rejected (tasks : List Task) (task_text : String) (week : Int)
    (deadline assignee priority : String) (h : pyStrip task_text = "") :
    add_task_btn tasks task_text week deadline assignee priority =
      { tasks := some tasks, saved := false, errorMsg := some "Task description required" } := by
  simp [add_task_btn, h]

/-- Witness for C6: a whitespace-only description on the test fixture. -/
theorem add_task_blank_rejected_witness :
    add_task_btn sampleTasks "   " 2 "2024-12-10" "You" "low" =
      { tasks := some sampleTasks, saved := false,
        errorMsg := some "Task description required" } :=
  add_task_blank_rejected sampleTasks "   " 2 "2024-12-10" "You" "low" (by decide)

/-- C2 (code bug): the helpers-variant balance adds the whole `pending_in` sum
— `balance = (received + pending_in) - paid_out` — although the source line is
commented `# Excluding pending payments` and the spec excludes pending
amounts.  On the repository's own financial fixture the code reports 25700
where the specified formula gives 6400; the app variant is independent of the
pending lists but skips the status filters, counting a `pending`-marked entry
sitting in the `received` list. -/
theorem financial_summary_balance_divergence :
    (get_financial_summary_helpers sampleFinances).balance = 25700 ∧
    balance_spec sampleFinances = 6400 ∧
    (get_financial_summary_app sampleFinances).balance = 6400 ∧
    (get_financial_summary_app sampleFinancesMixed).balance = 11400 ∧
    balance_spec sampleFinancesMixed = 0 := by
  decide

/-- C5 (code bug): the dashboard's budget-utilization computation
(`src/app.py` line 1339) divides by `budget_total` with no guard, so a zero
budget raises `ZeroDivisionError` (modelled `none`) where the spec requires
0%; on the same data the guarded specification formula returns 0, and on a
nonzero budget the two agree on `(received + paid_out) / budget_total * 100`. -/
theorem budget_used_division_by_zero :
    budget_used_dashboard sampleFinancesZeroBudget = none ∧
    budgetUtilization_spec sampleFinancesZeroBudget = 0 ∧
    budget_used_dashboard sampleFinances = some ((164 : ℚ) / 5) ∧
    budgetUtilization_spec sampleFinances = (164 : ℚ) / 5 := by
  refine ⟨rfl, rfl, ?_, ?_⟩ <;> norm_num [budget_used_dashboard, budgetUtilization_spec,
    get_financial_summary_app, sampleFinances, sumAmounts, pyDiv]

/-- C1 (counterexample): the helpers variant of `isOverdue` ignores the task's
status — a completed task with deadline `"2000-01-01"` is reported overdue. -/
theorem is_task_overdue_helpers_completed_true :
    is_task_overdue_helpers taskCompleted2000 nowLaunchNoon = true := by decide

/-- C1 (amended): the `src/app.py` variant returns false for any completed task
regardless of deadline and otherwise compares the parsed deadline against now;
the `src/utils/helpers.py` variant compares the parsed deadline against now
regardless of status (malformed deadlines are not overdue). -/
theorem is_task_overdue_variants (t : Task) (now : Int) :
    (t.status = "completed" → is_task_overdue_app t now = some false) ∧
    (t.status ≠ "completed" → ∀ d, parseDate t.deadline = some d →
      is_task_overdue_app t now = some (decide (86400 * d < now))) ∧
    (∀ d, parseDate t.deadline = some d →
      is_task_overdue_helpers t now = decide (86400 * d < now)) ∧
    (parseDate t.deadline = none → is_task_overdue_helpers t now = false) := by
  refine ⟨?_, ?_, ?_, ?_⟩
  · intro h; simp [is_task_overdue_app, h]
  · intro h d hd; simp [is_task_overdue_app, h, hd]
  · intro d hd; simp [is_task_overdue_helpers, hd]
  · intro h; simp [is_task_overdue_helpers, h]

/-- Witness for C1 on the sample tasks: the completed task is not overdue for
the app variant, and both variants compute the deadline comparison on a
pending task. -/
theorem is_task_overdue_variants_witness :
    is_task_overdue_app taskCompleted2000 nowLaunchNoon = some false ∧
    is_task_overdue_app taskPendingLaunchDay nowLaunchNoon
      = some (decide ((86400 * 20100 : Int) < nowLaunchNoon)) ∧
    is_task_overdue_helpers taskCompleted2000 nowLaunchNoon
      = decide ((86400 * 10957 : Int) < nowLaunchNoon) :=
  ⟨(is_task_overdue_variants taskCompleted2000 nowLaunchNoon).1 rfl,
   (is_task_overdue_variants taskPendingLaunchDay nowLaunchNoon).2.1 (by decide) 20100 (by decide),
   (is_task_overdue_variants taskCompleted2000 nowLaunchNoon).2.2.1 10957 (by decide)⟩

/-- C7 (counterexample): a pending task whose deadline is *today* is already
reported overdue at noon — `datetime.strptime` yields midnight, and
`deadline < datetime.now()` holds as soon as the clock passes 00:00.  Here the
deadline and the current time share epoch day 20100 yet the result is true. -/
theorem is_task_overdue_today_noon_true :
    is_task_overdue_app taskPendingLaunchDay nowLaunchNoon = some true ∧
    parseDate taskPendingLaunchDay.deadline = some 20100 ∧
    Int.fdiv nowLaunchNoon 86400 = 20100 := by decide

/-- C7 (amended): for a pending task with a well-formed deadline, `isOverdue`
holds iff the deadline's midnight is strictly before the current time: true
when the deadline is strictly before the current date, false when strictly
after, and for a deadline equal to the current date it is true exactly when
the current time is past midnight. -/
theorem is_task_overdue_pending_criterion (t : Task) (now d : Int)
    (hst : t.status = "pending") (hd : parseDate t.deadline = some d) :
    is_task_overdue_app t now = some (decide (86400 * d < now)) ∧
    (d < Int.fdiv now 86400 → is_task_overdue_app t now = some true) ∧
    (Int.fdiv now 86400 < d → is_task_overdue_app t now = some false) ∧
    (d = Int.fdiv now 86400 →
      (is_task_overdue_app t now = some true ↔ 86400 * d < now)) := by
  have hne : t.status ≠ "completed" := by rw [hst]; decide
  have hmain : is_task_overdue_app t now = some (decide (86400 * d < now)) := by
    simp [is_task_overdue_app, hne, hd]
  rw [fdiv_86400]
  refine ⟨hmain, ?_, ?_, ?_⟩
  · intro h; rw [hmain]
    simp only [Option.some.injEq, decide_eq_true_eq]
    omega
  · intro h; rw [hmain]
    simp only [Option.some.injEq]
    rw [decide_eq_false_iff_not]
    omega
  · intro h; rw [hmain]
    simp [decide_eq_true_eq]

/-- Witness for C7: thirty days past its deadline, the pending sample task is
overdue. -/
theorem is_task_overdue_pending_criterion_witness :
    is_task_overdue_app taskPendingLaunchDay nowThirtyAfter = some true :=
  (is_task_overdue_pending_criterion taskPendingLaunchDay nowThirtyAfter 20100 rfl
    (by decide)).2.1 (by decide)

/-- C3 (counterexample): the `src/app.py` variant of `daysRemaining` does not
clamp — thirty days after the launch date it returns −31, a negative value
(the repository's own test asserts this negative range). -/
theorem get_days_remaining_app_negative :
    get_days_remaining_app sampleProject nowThirtyAfter = some (-31) ∧
    ¬ (0 ≤ (-31 : Int)) := by decide

/-- C3 (amended): for a well-formed launch date, the `src/utils/helpers.py`
variant is non-negative, returns the floor whole-day difference when the launch
date is in the future and 0 when it is in the past; the `src/app.py` variant
returns the unclamped signed difference. -/
theorem days_remaining_variants (p : Project) (now d : Int)
    (hd : parseDate p.launch_date = some d) :
    0 ≤ get_days_remaining_helpers p now ∧
    (Int.fdiv now 86400 < d →
      get_days_remaining_helpers p now = Int.fdiv (86400 * d - now) 86400) ∧
    (d < Int.fdiv now 86400 → get_days_remaining_helpers p now = 0) ∧
    get_days_remaining_app p now = some (Int.fdiv (86400 * d - now) 86400) := by
  have h1 : get_days_remaining_helpers p now
      = max 0 (Int.fdiv (86400 * d - now) 86400) := by
    simp [get_days_remaining_helpers, hd]
  refine ⟨?_, ?_, ?_, ?_⟩
  · rw [h1]; exact le_max_left 0 _
  · intro h; rw [h1]
    apply max_eq_right
    rw [fdiv_86400] at h ⊢
    omega
  · intro h; rw [h1]
    apply max_eq_left
    rw [fdiv_86400] at h ⊢
    omega
  · simp [get_days_remaining_app, hd]

/-- Witness for C3: thirty days before launch at noon, the helpers variant
returns the whole-day difference 29 and is non-negative. -/
theorem days_remaining_variants_witness :
    0 ≤ get_days_remaining_helpers sampleProject (86400 * 20070 + 43200) ∧
    get_days_remaining_helpers sampleProject (86400 * 20070 + 43200)
      = Int.fdiv (86400 * 20100 - (86400 * 20070 + 43200)) 86400 :=
  ⟨(days_remaining_variants sampleProject (86400 * 20070 + 43200) 20100 (by decide)).1,
   (days_remaining_variants sampleProject (86400 * 20070 + 43200) 20100 (by decide)).2.1
     (by decide)⟩

/-- C4: when every task's status is `pending` or `completed`, the app-variant
`get_task_stats` reports `total = length`, `completed + pending = total`, a
critical count equal to the number of critical-priority tasks, and all-zero
counts on the empty list; in the helpers variant `completed + pending = total`
holds unconditionally because `pending` is defined as `total - completed`. -/
theorem task_stats_consistent (tasks : List Task) (now : Int)
    (h : ∀ t ∈ tasks, t.status = "pending" ∨ t.status = "completed") :
    (get_task_stats_app tasks).total = tasks.length ∧
    (get_task_stats_app tasks).completed + (get_task_stats_app tasks).pending
      = tasks.length ∧
    (get_task_stats_app tasks).critical
      = (tasks.filter (fun t => t.priority = "critical")).length ∧
    get_task_stats_app [] = ⟨0, 0, 0, 0⟩ ∧
    (get_task_stats_helpers tasks now).total = tasks.length ∧
    (get_task_stats_helpers tasks now).completed + (get_task_stats_helpers tasks now).pending
      = tasks.length := by
  refine ⟨rfl, ?_, rfl, rfl, rfl, ?_⟩
  case refine_2 =>
    have hf := List.length_filter_le (fun t => t.status = "completed") tasks
    simp only [get_task_stats_helpers]
    omega
  induction tasks with
  | nil => rfl
  | cons t ts ih =>
    have ht := h t (List.mem_cons_self t ts)
    have ih2 := ih (fun x hx => h x (List.mem_cons_of_mem t hx))
    simp only [get_task_stats_app, List.filter_cons, List.length_cons] at ih2 ⊢
    rcases ht with h1 | h1 <;> simp [h1] <;> omega

/-- Witness for C4 at the four-task test fixture: 1 completed + 3 pending = 4,
and exactly one critical task. -/
theorem task_stats_consistent_witness :
    (get_task_stats_app sampleTasks).total = sampleTasks.length ∧
    (get_task_stats_app sampleTasks).completed + (get_task_stats_app sampleTasks).pending
      = sampleTasks.length ∧
    (get_task_stats_app sampleTasks).critical
      = (sampleTasks.filter (fun t => t.priority = "critical")).length ∧
    get_task_stats_app [] = ⟨0, 0, 0, 0⟩ ∧
    (get_task_stats_helpers sampleTasks 0).total = sampleTasks.length ∧
    (get_task_stats_helpers sampleTasks 0).completed
        + (get_task_stats_helpers sampleTasks 0).pending
      = sampleTasks.length :=
  task_stats_consistent sampleTasks 0 (by decide)

/-- C8: on a nonempty task list with pairwise-distinct positive ids, a
successful add assigns the new task `max existing id + 1`, and afterwards the
ids are still pairwise distinct and positive. -/
theorem add_task_id_unique (tasks : List Task) (task_text : String) (week : Int)
    (deadline assignee priority : String)
    (hne : tasks ≠ []) (htext : pyStrip task_text ≠ "")
    (hnodup : (tasks.map Task.id).Nodup) (hpos : ∀ t ∈ tasks, 0 < t.id) :
    ∃ m, listMax (tasks.map Task.id) = some m ∧ (∀ t ∈ tasks, t.id ≤ m) ∧
      ∃ ts, add_task_btn tasks task_text week deadline assignee priority =
          { tasks := some ts, saved := true, errorMsg := none } ∧
        ts.map Task.id = tasks.map Task.id ++ [m + 1] ∧
        (ts.map Task.id).Nodup ∧ ∀ t ∈ ts, 0 < t.id := by
  obtain ⟨m, hm, hmem, hle⟩ := listMax_spec (tasks.map Task.id) (by simpa using hne)
  refine ⟨m, hm, fun t ht => hle t.id (List.mem_map_of_mem Task.id ht), ?_⟩
  refine ⟨tasks ++ [Task.mk (m + 1) task_text week deadline "pending" assignee priority],
    ?_, ?_, ?_, ?_⟩
  · simp [add_task_btn, htext, hm]
  · simp
  · rw [List.map_append, List.nodup_append]
    refine ⟨hnodup, by simp, ?_⟩
    intro x hx hx2
    simp only [List.map_cons, List.map_nil, List.mem_singleton] at hx2
    have := hle x hx
    omega
  · intro t ht
    rcases List.mem_append.mp ht with h | h
    · exact hpos t h
    · obtain ⟨t0, ht0, rfl⟩ := List.mem_map.mp hmem
      have := hpos t0 ht0
      simp only [List.mem_singleton] at h
      rw [h]
      simp only []
      omega

/-- Witness for C8: adding a task to the four-task fixture assigns id 5. -/
theorem add_task_id_unique_witness :
    ∃ m, listMax (sampleTasks.map Task.id) = some m ∧ (∀ t ∈ sampleTasks, t.id ≤ m) ∧
      ∃ ts, add_task_btn sampleTasks "Order packaging" 2 "2024-12-10" "You" "medium" =
          { tasks := some ts, saved := true, errorMsg := none } ∧
        ts.map Task.id = sampleTasks.map Task.id ++ [m + 1] ∧
        (ts.map Task.id).Nodup ∧ ∀ t ∈ ts, 0 < t.id :=
  add_task_id_unique sampleTasks "Order packaging" 2 "2024-12-10" "You" "medium"
    (by decide) (by decide) (by decide) (by decide)

/-- Invariant of the dedup-and-cap fold: the accumulator never exceeds the cap,
stays case-insensitively duplicate-free, and every kept suggestion's lowercase
form is recorded in `seen`. -/
theorem dedupCap_go (cap : Nat) (l : List String) (seen acc : List String)
    (hlen : acc.length ≤ cap)
    (hpair : acc.Pairwise (fun a b => pyLower a ≠ pyLower b))
    (hseen : ∀ s ∈ acc, pyLower s ∈ seen) :
    (l.foldl (dedupStep cap) (seen, acc)).2.length ≤ cap ∧
    (l.foldl (dedupStep cap) (seen, acc)).2.Pairwise (fun a b => pyLower a ≠ pyLower b) := by
  induction l generalizing seen acc with
  | nil => exact ⟨hlen, hpair⟩
  | cons s rest ih =>
    simp only [List.foldl_cons, dedupStep]
    by_cases hc : ¬ seen.contains (pyLower s) ∧ acc.length < cap
    · rw [if_pos hc]
      apply ih
      · simp only [List.length_append, List.length_singleton]
        omega
      · rw [List.pairwise_append]
        refine ⟨hpair, List.pairwise_singleton _ _, ?_⟩
        intro a ha b hb
        simp only [List.mem_singleton] at hb
        subst hb
        intro heq
        have hmem : pyLower b ∈ seen := heq ▸ hseen a ha
        exact hc.1 (by simpa using hmem)
      · intro x hx
        rcases List.mem_append.mp hx with h | h
        · exact List.mem_cons_of_mem _ (hseen x h)
        · simp only [List.mem_singleton] at h
          subst h
          exact List.mem_cons_self _ _
    · rw [if_neg hc]
      exact ih seen acc hlen hpair hseen

/-- The dedup-and-cap loop returns at most `cap` suggestions, pairwise distinct
case-insensitively. -/
theorem dedupCap_spec (cap : Nat) (l : List String) :
    (dedupCap cap l).length ≤ cap ∧
    (dedupCap cap l).Pairwise (fun a b => pyLower a ≠ pyLower b) :=
  dedupCap_go cap l [] [] (Nat.zero_le _) List.Pairwise.nil (by simp)

/-- Appending a common suffix preserves case-insensitive distinctness. -/
theorem pyLower_append_right_ne (p q t : String) (h : pyLower p ≠ pyLower q) :
    pyLower (p ++ t) ≠ pyLower (q ++ t) := by
  intro heq
  apply h
  have h1 : p.data.map Char.toLower ++ t.data.map Char.toLower
      = q.data.map Char.toLower ++ t.data.map Char.toLower := by
    have h0 := congrArg String.data heq
    simpa [pyLower, String.data_append] using h0
  exact congrArg String.mk (List.append_cancel_right h1)

/-- C9: both suggestion variants respect their caps (five for the app variant,
three for the pattern-table variant) and return no two entries that are equal
case-insensitively. -/
theorem smart_suggestions_capped_dedup (input : String) (existing : List Task) :
    (render_smart_suggestions_app input existing).length ≤ 5 ∧
    (render_smart_suggestions_app input existing).Pairwise
      (fun a b => pyLower a ≠ pyLower b) ∧
    (render_smart_suggestions_tasks input existing).length ≤ 3 ∧
    (render_smart_suggestions_tasks input existing).Pairwise
      (fun a b => pyLower a ≠ pyLower b) := by
  have happ : (render_smart_suggestions_app input existing).length ≤ 5 ∧
      (render_smart_suggestions_app input existing).Pairwise
        (fun a b => pyLower a ≠ pyLower b) := by
    by_cases h : pyStrip input = ""
    · have he : render_smart_suggestions_app input existing = [] := by
        simp [render_smart_suggestions_app, h]
      rw [he]
      exact ⟨by simp, List.Pairwise.nil⟩
    · have he : render_smart_suggestions_app input existing
          = dedupCap 5
            (((task_types.filter
                (fun p => pySubstr p.1 (pyLower input))).flatMap Prod.snd)
              ++ ((existing.drop (existing.length - 5)).flatMap (fun t =>
                if pySubstr (pyLower input) (pyLower t.task)
                    ∨ (pySplitWs (pyLower input)).any
                        (fun w => pySubstr w (pyLower t.task)) then
                  ((existing.filter (fun u => u ≠ t
                      ∧ pySubstr (pyLower t.task) (pyLower u.task))).map Task.task).take 2
                else []))) := by
        simp [render_smart_suggestions_app, h]
      rw [he]
      exact dedupCap_spec 5 _
  have htasks : (render_smart_suggestions_tasks input existing).length ≤ 3 ∧
      (render_smart_suggestions_tasks input existing).Pairwise
        (fun a b => pyLower a ≠ pyLower b) := by
    by_cases h : input = "" ∨ input.length < 3
    · have he : render_smart_suggestions_tasks input existing = [] := by
        simp only [render_smart_suggestions_tasks, if_pos h]
      rw [he]
      exact ⟨by simp, List.Pairwise.nil⟩
    · have he : render_smart_suggestions_tasks input existing
          = (((common_patterns.filter
                (fun p => (pySplitWs (pyLower input)).any
                  (fun w => pySubstr w (pyLower p)))).map
              (fun p => p ++ " " ++ input)).filter
            (fun s => ¬ (existing.map Task.task).contains s)).take 3 := by
        simp only [render_smart_suggestions_tasks, if_neg h]
      rw [he]
      refine ⟨List.length_take_le _ _, ?_⟩
      apply List.Pairwise.sublist (List.take_sublist _ _)
      apply List.Pairwise.sublist (List.filter_sublist _)
      rw [List.pairwise_map]
      have hbase : common_patterns.Pairwise (fun p q => pyLower p ≠ pyLower q) := by decide
      exact (hbase.imp (fun hpq => pyLower_append_right_ne _ _ input
        (pyLower_append_right_ne _ _ " " hpq))).sublist (List.filter_sublist _)
  exact ⟨happ.1, happ.2, htasks.1, htasks.2⟩

end PointJewels
